import Mathlib

/-!
Shallow embedding of `src/validador_cartao_credito.py` (class
`ValidadorCartaoCredito`): the normalizer `limpar_numero`, the Luhn
validator `validar_luhn`, the brand classifier `identificar_bandeira`
(one Boolean matcher per regex in `padroes_bandeiras`, tried in the
dictionary's insertion order), the orchestrator `validar_cartao` and the
display formatter `formatar_numero`.

Strings are Lean `String`s (a list of characters, as in Python).
Every regex in the source is fully anchored (`^...$`), and
`identificar_bandeira` always applies them to the output of
`limpar_numero`, which contains only the ASCII digits `0`-`9`; on such
strings Python's `\d`, `[0-9]` and `str.isdigit` coincide with
`Char.isDigit`, and `$` cannot see a trailing newline, so the matchers
below are stated with `Char.isDigit` / plain character comparisons.
-/

namespace Validador

/-- `limpar_numero`: `re.sub(r'[^0-9]', '', str(numero))` — keep only the
ASCII decimal digits, preserving their order. -/
def limpar_numero (numero : String) : String :=
  ⟨numero.data.filter Char.isDigit⟩

/-- Python's `str.isdigit`, as it behaves on every string this program
applies it to (outputs of `limpar_numero`, hence ASCII-only): true iff
the string is non-empty and every character is a decimal digit. -/
def str_isdigit (s : String) : Bool :=
  !s.data.isEmpty && s.data.all Char.isDigit

/-- `int(d)` for a digit character `d`. -/
def charToDigit (c : Char) : Nat := c.toNat - 48

/-- The body of the doubling loop: `d *= 2; if d > 9: d -= 9`. -/
def double9 (d : Nat) : Nat := if 2 * d > 9 then 2 * d - 9 else 2 * d

/-- `for i in range(0, len(digitos), 2): ...` — double (with the
subtract-9 correction) the entries at even 0-based indices. -/
def doubleEvens : List Nat → List Nat
  | [] => []
  | [a] => [double9 a]
  | a :: b :: rest => double9 a :: b :: doubleEvens rest

/-- `validar_luhn`: clean the input, reject (False) unless the result is a
non-empty digit string, drop the trailing check digit, reverse the rest,
double the even-indexed entries, append the check digit back, and test
whether the total sum is divisible by 10. -/
def validar_luhn (numero : String) : Bool :=
  let n := limpar_numero numero
  if str_isdigit n then
    let digitos := n.data.map charToDigit
    let check_digit := digitos.getLastD 0
    let rest := digitos.dropLast.reverse
    let processados := doubleEvens rest ++ [check_digit]
    processados.sum % 10 == 0
  else
    false

/-- `a ≤ c ≤ b` on characters (a regex character class `[a-b]`). -/
def between (a c b : Char) : Bool := a ≤ c && c ≤ b

/-- `^4[0-9]{12}(?:[0-9]{3})?$` -/
def matchVisa : List Char → Bool
  | '4' :: rest => rest.all Char.isDigit && (rest.length == 12 || rest.length == 15)
  | _ => false

/-- `^5[1-5][0-9]{14}$|^2[2-7][0-9]{14}$` -/
def matchMastercard : List Char → Bool
  | '5' :: c :: rest => between '1' c '5' && rest.all Char.isDigit && rest.length == 14
  | '2' :: c :: rest => between '2' c '7' && rest.all Char.isDigit && rest.length == 14
  | _ => false

/-- `^3[47][0-9]{13}$` -/
def matchAmex : List Char → Bool
  | '3' :: c :: rest => (c == '4' || c == '7') && rest.all Char.isDigit && rest.length == 13
  | _ => false

/-- The Elo pattern.  Its outer group is an alternation of fixed-length
prefix patterns and the `$` anchor follows the group directly, so the
whole string must be one of the listed 4-, 5- or 6-character words:
`^(4011(78|79)|43(1274|8935)|45(1416|7393|763[12])|50(4175|6699|67[0-6][0-9]|677[0-8]|9[0-8][0-9]{2}|99[0-8][0-9]|999[0-9])|627780|63(6297|6368|6369)|65(0(0(3[1-3]|[5-9])|4[0-9]|5[0-1])|4(0[5-9]|[1-3][0-9]|8[5-9]|9[0-9])|5([0-2][0-9]|3[0-8]|4[1-9]|[5-8][0-9]|9[0-8])|7(0[0-9]|1[0-8]|2[0-7])|9(0[1-9]|[1-6][0-9]|7[0-8]))|16(5[2-9]|[6-7][0-9])|50(0[0-9]|1[0-9]|2[1-9]|[3-4][0-9]|5[0-8]))$` -/
def matchElo (l : List Char) : Bool :=
  match l with
  | [a, b, c, d] =>
    -- 16(5[2-9]|[6-7][0-9])
    (a == '1' && b == '6' &&
      ((c == '5' && between '2' d '9') || (between '6' c '7' && d.isDigit))) ||
    -- 50(0[0-9]|1[0-9]|2[1-9]|[3-4][0-9]|5[0-8])
    (a == '5' && b == '0' &&
      ((c == '0' && d.isDigit) || (c == '1' && d.isDigit) ||
       (c == '2' && between '1' d '9') || (between '3' c '4' && d.isDigit) ||
       (c == '5' && between '0' d '8')))
  | [a, b, c, d, e] =>
    -- 65(0(...[5-9]|4[0-9]|5[0-1])|4(...)|5(...)|7(...)|9(...)), 5-char branches
    a == '6' && b == '5' &&
      ((c == '0' &&
         ((d == '0' && between '5' e '9') || (d == '4' && e.isDigit) ||
          (d == '5' && between '0' e '1'))) ||
       (c == '4' &&
         ((d == '0' && between '5' e '9') || (between '1' d '3' && e.isDigit) ||
          (d == '8' && between '5' e '9') || (d == '9' && e.isDigit))) ||
       (c == '5' &&
         ((between '0' d '2' && e.isDigit) || (d == '3' && between '0' e '8') ||
          (d == '4' && between '1' e '9') || (between '5' d '8' && e.isDigit) ||
          (d == '9' && between '0' e '8'))) ||
       (c == '7' &&
         ((d == '0' && e.isDigit) || (d == '1' && between '0' e '8') ||
          (d == '2' && between '0' e '7'))) ||
       (c == '9' &&
         ((d == '0' && between '1' e '9') || (between '1' d '6' && e.isDigit) ||
          (d == '7' && between '0' e '8'))))
  | [a, b, c, d, e, f] =>
    -- 4011(78|79)
    (a == '4' && b == '0' && c == '1' && d == '1' && e == '7' &&
      (f == '8' || f == '9')) ||
    -- 43(1274|8935)
    (a == '4' && b == '3' &&
      ((c == '1' && d == '2' && e == '7' && f == '4') ||
       (c == '8' && d == '9' && e == '3' && f == '5'))) ||
    -- 45(1416|7393|763[12])
    (a == '4' && b == '5' &&
      ((c == '1' && d == '4' && e == '1' && f == '6') ||
       (c == '7' && d == '3' && e == '9' && f == '3') ||
       (c == '7' && d == '6' && e == '3' && (f == '1' || f == '2')))) ||
    -- 50(4175|6699|67[0-6][0-9]|677[0-8]|9[0-8][0-9]{2}|99[0-8][0-9]|999[0-9])
    (a == '5' && b == '0' &&
      ((c == '4' && d == '1' && e == '7' && f == '5') ||
       (c == '6' && d == '6' && e == '9' && f == '9') ||
       (c == '6' && d == '7' && between '0' e '6' && f.isDigit) ||
       (c == '6' && d == '7' && e == '7' && between '0' f '8') ||
       (c == '9' && between '0' d '8' && e.isDigit && f.isDigit) ||
       (c == '9' && d == '9' && between '0' e '8' && f.isDigit) ||
       (c == '9' && d == '9' && e == '9' && f.isDigit))) ||
    -- 627780
    (a == '6' && b == '2' && c == '7' && d == '7' && e == '8' && f == '0') ||
    -- 63(6297|6368|6369)
    (a == '6' && b == '3' && c == '6' &&
      ((d == '2' && e == '9' && f == '7') ||
       (d == '3' && e == '6' && (f == '8' || f == '9')))) ||
    -- 65003[1-3]   (the single 6-char branch of the 65(...) group)
    (a == '6' && b == '5' && c == '0' && d == '0' && e == '3' && between '1' f '3')
  | _ => false

/-- `^(606282\d{10}(\d{3})?|3841\d{15})$` -/
def matchHipercard : List Char → Bool
  | '6' :: '0' :: '6' :: '2' :: '8' :: '2' :: rest =>
    rest.all Char.isDigit && (rest.length == 10 || rest.length == 13)
  | '3' :: '8' :: '4' :: '1' :: rest => rest.all Char.isDigit && rest.length == 15
  | _ => false

/-- `^3(?:0[0-5]|[68][0-9])[0-9]{11}$` -/
def matchDiners : List Char → Bool
  | '3' :: a :: b :: rest =>
    ((a == '0' && between '0' b '5') || ((a == '6' || a == '8') && b.isDigit)) &&
      rest.all Char.isDigit && rest.length == 11
  | _ => false

/-- `^6(?:011|5[0-9]{2})[0-9]{12}$` -/
def matchDiscover : List Char → Bool
  | '6' :: a :: b :: c :: rest =>
    ((a == '0' && b == '1' && c == '1') || (a == '5' && b.isDigit && c.isDigit)) &&
      rest.all Char.isDigit && rest.length == 12
  | _ => false

/-- `^(?:2131|1800|35\d{3})\d{11}$` -/
def matchJcb : List Char → Bool
  | '2' :: '1' :: '3' :: '1' :: rest => rest.all Char.isDigit && rest.length == 11
  | '1' :: '8' :: '0' :: '0' :: rest => rest.all Char.isDigit && rest.length == 11
  | '3' :: '5' :: a :: b :: c :: rest =>
    a.isDigit && b.isDigit && c.isDigit && rest.all Char.isDigit && rest.length == 11
  | _ => false

/-- `^5078\d{2}\d{2}\d{11}$` — note `\d{2}\d{2}\d{11}` is 15 further
digits, so this matches exactly the 19-digit strings starting `5078`. -/
def matchAura : List Char → Bool
  | '5' :: '0' :: '7' :: '8' :: rest => rest.all Char.isDigit && rest.length == 15
  | _ => false

/-- `^(?:5[0678]\d\d|6304|6390|67\d\d)\d{8,15}$` -/
def matchMaestro : List Char → Bool
  | '5' :: a :: b :: c :: rest =>
    (a == '0' || a == '6' || a == '7' || a == '8') && b.isDigit && c.isDigit &&
      rest.all Char.isDigit && decide (8 ≤ rest.length) && decide (rest.length ≤ 15)
  | '6' :: '3' :: '0' :: '4' :: rest =>
    rest.all Char.isDigit && decide (8 ≤ rest.length) && decide (rest.length ≤ 15)
  | '6' :: '3' :: '9' :: '0' :: rest =>
    rest.all Char.isDigit && decide (8 ≤ rest.length) && decide (rest.length ≤ 15)
  | '6' :: '7' :: a :: b :: rest =>
    a.isDigit && b.isDigit &&
      rest.all Char.isDigit && decide (8 ≤ rest.length) && decide (rest.length ≤ 15)
  | _ => false

/-- `identificar_bandeira`: clean the number, then try each pattern of
`padroes_bandeiras` in the dictionary's insertion order and return the
display name (`nomes_bandeiras`) of the first that matches. -/
def identificar_bandeira (numero : String) : Option String :=
  let n := (limpar_numero numero).data
  if matchVisa n then some "Visa"
  else if matchMastercard n then some "Mastercard"
  else if matchAmex n then some "American Express"
  else if matchElo n then some "Elo"
  else if matchHipercard n then some "Hipercard"
  else if matchDiners n then some "Diners Club"
  else if matchDiscover n then some "Discover"
  else if matchJcb n then some "JCB"
  else if matchAura n then some "Aura"
  else if matchMaestro n then some "Maestro"
  else none

/-- The result dictionary built by `validar_cartao`. -/
structure Resultado where
  numero_original : String
  numero_limpo : String
  valido_luhn : Bool
  bandeira : Option String
  valido_completo : Bool
  comprimento : Nat
  mensagem : String
deriving Repr, DecidableEq

/-- `validar_cartao`: clean, short-circuit on a non-digit (i.e. empty)
cleaned string and on a length outside 13..19, otherwise run the Luhn
check and the classifier, derive `valido_completo` as their conjunction
and pick the status message. -/
def validar_cartao (numero : String) : Resultado :=
  let numero_limpo := limpar_numero numero
  let base : Resultado :=
    { numero_original := numero
      numero_limpo := numero_limpo
      valido_luhn := false
      bandeira := none
      valido_completo := false
      comprimento := numero_limpo.length
      mensagem := "" }
  if !str_isdigit numero_limpo then
    { base with mensagem := "Número contém caracteres inválidos" }
  else if numero_limpo.length < 13 ∨ 19 < numero_limpo.length then
    { base with mensagem := "Comprimento inválido (deve ter entre 13 e 19 dígitos)" }
  else
    let vl := validar_luhn numero_limpo
    let b := identificar_bandeira numero_limpo
    let vc := vl && b.isSome
    let msg :=
      if vc then "Cartão válido - Bandeira: " ++ b.getD ""
      else if vl && b.isNone then
        "Número válido pelo algoritmo Luhn, mas bandeira não identificada"
      else if !vl && b.isSome then
        "Bandeira identificada (" ++ b.getD "" ++ "), mas número inválido pelo algoritmo Luhn"
      else "Número inválido"
    { base with
        valido_luhn := vl
        bandeira := b
        valido_completo := vc
        mensagem := msg }

/-- The brand `formatar_numero` actually dispatches on: the argument
unless it is falsy (`None` or the empty string), in which case the
classifier's answer. -/
def bandeiraEfetiva (numero : String) (bandeira : Option String) : Option String :=
  if bandeira = none ∨ bandeira = some "" then identificar_bandeira (limpar_numero numero)
  else bandeira

/-- `formatar_numero`: clean, resolve the brand, and insert hyphens
after the brand-specific grouping (`numero[:4]-numero[4:10]-numero[10:]`
for American Express at 15 and Diners Club at 14 digits,
`numero[:4]-numero[4:8]-numero[8:12]-numero[12:]` for every other brand
value — the classifier's `None` included — at 16 digits); otherwise
return the cleaned string unchanged. -/
def formatar_numero (numero : String) (bandeira : Option String) : String :=
  let n := (limpar_numero numero).data
  let b := bandeiraEfetiva numero bandeira
  if b = some "American Express" then
    if n.length = 15 then
      ⟨n.take 4 ++ '-' :: ((n.drop 4).take 6 ++ '-' :: n.drop 10)⟩
    else ⟨n⟩
  else if b = some "Diners Club" then
    if n.length = 14 then
      ⟨n.take 4 ++ '-' :: ((n.drop 4).take 6 ++ '-' :: n.drop 10)⟩
    else ⟨n⟩
  else
    if n.length = 16 then
      ⟨n.take 4 ++ '-' :: ((n.drop 4).take 4 ++ '-' :: ((n.drop 8).take 4 ++ '-' :: n.drop 12))⟩
    else ⟨n⟩

/-! ## Auxiliary forms of the Luhn sum, used to reason about
`validar_luhn`, and the spec's own wording of the algorithm. -/

/-- The weight applied to one digit: doubled (with the subtract-9
correction) when the flag is set, untouched otherwise. -/
def saltW (b : Bool) (d : Nat) : Nat := if b then double9 d else d

/-- Alternating weighted sum: the head is doubled iff the flag is set,
and the flag flips at each step. `salt true` is the sum of
`doubleEvens`. -/
def salt : Bool → List Nat → Nat
  | _, [] => 0
  | b, d :: rest => saltW b d + salt (!b) rest

/-- The doubling flag after crossing `n` positions. -/
def flagAfter (b : Bool) (n : Nat) : Bool := if n % 2 = 0 then b else !b

/-- The full Luhn total read off the reversed digit list: the head (the
check digit) untouched, then the alternating weighted sum. -/
def wsum : List Nat → Nat
  | [] => 0
  | h :: t => h + salt true t

/-- Index-based transcription of the spec's step 4: "for every digit at
an even index (0-based) in this reversed sequence ... double its value;
if the doubled value exceeds 9, subtract 9". -/
def sumIdx : Nat → List Nat → Nat
  | _, [] => 0
  | i, d :: rest =>
      (if i % 2 = 0 then (if 2 * d > 9 then 2 * d - 9 else 2 * d) else d) + sumIdx (i + 1) rest

/-- The Luhn algorithm exactly as §4.2 of the spec words it, over a
digit sequence: empty input is invalid; otherwise the last digit is the
check digit, the remaining digits are reversed, even 0-based indices of
the reversed sequence are doubled with the subtract-9 correction, and
the total (doubled and untouched digits plus the check digit) must be
divisible by 10. -/
def luhnSpec (digits : List Nat) : Bool :=
  match digits with
  | [] => false
  | _ :: _ => (sumIdx 0 digits.dropLast.reverse + digits.getLastD 0) % 10 == 0

/-! ## Basic facts about the normalizer -/

theorem limpar_all_isDigit (s : String) :
    (limpar_numero s).data.all Char.isDigit = true := by
  simp only [limpar_numero, List.all_eq_true]
  intro a ha
  exact (List.mem_filter.mp ha).2

theorem limpar_of_all_isDigit (l : List Char) (h : l.all Char.isDigit = true) :
    limpar_numero ⟨l⟩ = ⟨l⟩ := by
  simp only [limpar_numero]
  exact congrArg String.mk (List.filter_eq_self.mpr (by simpa [List.all_eq_true] using h))

theorem str_isdigit_limpar (s : String) :
    str_isdigit (limpar_numero s) = !(limpar_numero s).data.isEmpty := by
  simp [str_isdigit, limpar_all_isDigit]

/-- C8: `limpar_numero` (normalize) is idempotent and its output contains
only ASCII decimal digit characters. -/
theorem C8_limpar_idempotent_and_digits (x : String) :
    limpar_numero (limpar_numero x) = limpar_numero x ∧
    (limpar_numero x).data.all Char.isDigit = true :=
  ⟨limpar_of_all_isDigit (limpar_numero x).data (limpar_all_isDigit x), limpar_all_isDigit x⟩

/-- C7: `validar_cartao "4111111111111111"` yields checksum-valid, brand
Visa, fully valid, and a status message containing the substring
`"Visa"`. -/
theorem C7_visa_4111111111111111 :
    (validar_cartao "4111111111111111").valido_luhn = true ∧
    (validar_cartao "4111111111111111").bandeira = some "Visa" ∧
    (validar_cartao "4111111111111111").valido_completo = true ∧
    "Visa".data <:+: (validar_cartao "4111111111111111").mensagem.data := by
  decide

/-- C5: in every branch of `validar_cartao`, `valido_completo` equals the
conjunction of `valido_luhn` and the presence of a brand. -/
theorem C5_valido_completo_is_conjunction (s : String) :
    (validar_cartao s).valido_completo =
      ((validar_cartao s).valido_luhn && (validar_cartao s).bandeira.isSome) := by
  by_cases h1 : str_isdigit (limpar_numero s) = true
  · by_cases h2 : (limpar_numero s).length < 13 ∨ 19 < (limpar_numero s).length
    · simp [validar_cartao, h1, h2]
    · simp [validar_cartao, h1, h2]
  · simp [validar_cartao, h1]

/-! ## The status messages of `validar_cartao` -/

theorem append_ne_of_head (p q x : String) (a b : Char) (hp : p.data.head? = some a)
    (hq : q.data.head? = some b) (hab : a ≠ b) : p ++ x ≠ q := by
  intro h
  have h2 := congrArg (fun t => t.data.head?) h
  simp only [String.data_append, List.head?_append, hp, hq] at h2
  exact hab (Option.some.inj (by simpa using h2))

theorem data_ne_nil_of_ne_empty (s : String) (h : s ≠ "") : s.data ≠ [] := by
  intro hd
  exact h (String.ext (by simpa using hd))

/-- C9: `validar_cartao` returns the malformed-input message exactly when
the normalized string is empty; a non-empty normalized string never
reaches that branch. -/
theorem C9_malformed_iff_empty (s : String) :
    (validar_cartao s).mensagem = "Número contém caracteres inválidos" ↔
      limpar_numero s = "" := by
  by_cases h : (limpar_numero s).data = []
  · have he : limpar_numero s = "" := String.ext (by simpa using h)
    have h1 : str_isdigit (limpar_numero s) = false := by
      rw [str_isdigit_limpar]; simp [h]
    constructor
    · intro _; exact he
    · intro _; simp [validar_cartao, h1]
  · have hne : limpar_numero s ≠ "" := by
      intro he; rw [he] at h; exact h rfl
    have h1 : str_isdigit (limpar_numero s) = true := by
      rw [str_isdigit_limpar]; simp [h]
    constructor
    · intro hmsg
      exfalso
      by_cases h2 : (limpar_numero s).length < 13 ∨ 19 < (limpar_numero s).length
      · simp [validar_cartao, h1, h2] at hmsg
      · cases hb : identificar_bandeira (limpar_numero s) with
        | none =>
          cases hvl : validar_luhn (limpar_numero s) with
          | false => simp [validar_cartao, h1, h2, hb, hvl] at hmsg
          | true => simp [validar_cartao, h1, h2, hb, hvl] at hmsg
        | some x =>
          cases hvl : validar_luhn (limpar_numero s) with
          | false =>
            simp [validar_cartao, h1, h2, hb, hvl] at hmsg
            rw [String.append_assoc] at hmsg
            exact append_ne_of_head _ _ _ 'B' 'N' (by decide) (by decide) (by decide) hmsg
          | true =>
            simp [validar_cartao, h1, h2, hb, hvl] at hmsg
            exact append_ne_of_head _ _ _ 'C' 'N' (by decide) (by decide) (by decide) hmsg
    · intro he; exact absurd he hne

/-- C2, as the claim states it, is false at the empty string: the verdict
carries the malformed-input message, not the invalid-length one. -/
theorem C2_counterexample :
    (validar_cartao "").mensagem = "Número contém caracteres inválidos" ∧
    "Número contém caracteres inválidos" ≠
      "Comprimento inválido (deve ter entre 13 e 19 dígitos)" ∧
    (validar_cartao "").valido_completo = false := by
  decide

/-- C2 (amended): `validar_cartao ""` returns (without any exception — the
function is total) the invalid-characters message with
`valido_completo = false`; for every input whose normalized form is
non-empty and of length outside `[13, 19]`, the verdict carries the
invalid-length message with `valido_luhn = false`, `bandeira = none` and
`valido_completo = false`. -/
theorem C2_empty_and_length_verdicts :
    ((validar_cartao "").mensagem = "Número contém caracteres inválidos" ∧
     (validar_cartao "").valido_completo = false) ∧
    ∀ s : String, limpar_numero s ≠ "" →
      ((limpar_numero s).length < 13 ∨ 19 < (limpar_numero s).length) →
      ((validar_cartao s).mensagem =
          "Comprimento inválido (deve ter entre 13 e 19 dígitos)" ∧
       (validar_cartao s).valido_luhn = false ∧
       (validar_cartao s).bandeira = none ∧
       (validar_cartao s).valido_completo = false) := by
  constructor
  · exact ⟨by decide, by decide⟩
  · intro s hne hlen
    have h1 : str_isdigit (limpar_numero s) = true := by
      rw [str_isdigit_limpar]
      simp [data_ne_nil_of_ne_empty _ hne]
    simp [validar_cartao, h1, hlen]

theorem C2_length_witness :
    (validar_cartao "123").mensagem =
        "Comprimento inválido (deve ter entre 13 e 19 dígitos)" ∧
    (validar_cartao "123").valido_luhn = false ∧
    (validar_cartao "123").bandeira = none ∧
    (validar_cartao "123").valido_completo = false :=
  C2_empty_and_length_verdicts.2 "123" (by decide) (by decide)

/-! ## Brand classification of `5078...` numbers -/

theorem matchElo_eq_false_of_long (l : List Char) (h : 6 < l.length) :
    matchElo l = false := by
  rcases l with _ | ⟨a, _ | ⟨b, _ | ⟨c, _ | ⟨d, _ | ⟨e, _ | ⟨f, _ | ⟨g, t⟩⟩⟩⟩⟩⟩⟩
  all_goals first
    | rfl
    | (exfalso; simp at h)

/-- C1 as stated is false: a 16-digit number starting `5078` is classified
as Maestro, not Aura (the Aura pattern `^5078\d{2}\d{2}\d{11}$` needs 19
digits). -/
theorem C1_counterexample :
    identificar_bandeira "5078000000000000" = some "Maestro" ∧
    identificar_bandeira "5078000000000000" ≠ some "Aura" := by
  decide

/-- C1 (amended): the code's Aura rule fires on 19-digit strings starting
`5078` (the regex `^5078\d{2}\d{2}\d{11}$` demands 15 further digits); a
16-digit string starting `5078` instead falls through to the Maestro
rule. -/
theorem C1_aura_19_and_maestro_16 :
    (∀ rest : List Char, rest.all Char.isDigit = true → rest.length = 15 →
      identificar_bandeira ⟨'5' :: '0' :: '7' :: '8' :: rest⟩ = some "Aura") ∧
    (∀ rest : List Char, rest.all Char.isDigit = true → rest.length = 12 →
      identificar_bandeira ⟨'5' :: '0' :: '7' :: '8' :: rest⟩ = some "Maestro") := by
  constructor
  all_goals intro rest hall hlen
  all_goals
    have hl : ('5' :: '0' :: '7' :: '8' :: rest).all Char.isDigit = true := by
      simp only [List.all_cons, hall]; decide
  all_goals
    have hlimp := limpar_of_all_isDigit _ hl
  all_goals
    have helo : matchElo ('5' :: '0' :: '7' :: '8' :: rest) = false :=
      matchElo_eq_false_of_long _ (by simp [hlen])
  all_goals
    have hvisa : matchVisa ('5' :: '0' :: '7' :: '8' :: rest) = false := rfl
  all_goals
    have hmc : matchMastercard ('5' :: '0' :: '7' :: '8' :: rest) = false := rfl
  all_goals
    have hamex : matchAmex ('5' :: '0' :: '7' :: '8' :: rest) = false := rfl
  all_goals
    have hhiper : matchHipercard ('5' :: '0' :: '7' :: '8' :: rest) = false := rfl
  all_goals
    have hdin : matchDiners ('5' :: '0' :: '7' :: '8' :: rest) = false := rfl
  all_goals
    have hdisc : matchDiscover ('5' :: '0' :: '7' :: '8' :: rest) = false := rfl
  all_goals
    have hjcb : matchJcb ('5' :: '0' :: '7' :: '8' :: rest) = false := rfl
  · have haura : matchAura ('5' :: '0' :: '7' :: '8' :: rest) = true := by
      simp [matchAura, hall, hlen]
    simp [identificar_bandeira, hlimp, hvisa, hmc, hamex, helo, hhiper, hdin, hdisc,
      hjcb, haura]
  · have haura : matchAura ('5' :: '0' :: '7' :: '8' :: rest) = false := by
      simp [matchAura, hall, hlen]
    have hmae : matchMaestro ('5' :: '0' :: '7' :: '8' :: rest) = true := by
      simp [matchMaestro, hall, hlen]
    simp [identificar_bandeira, hlimp, hvisa, hmc, hamex, helo, hhiper, hdin, hdisc,
      hjcb, haura, hmae]

theorem C1_aura_19_witness :
    identificar_bandeira "5078000000000000000" = some "Aura" :=
  C1_aura_19_and_maestro_16.1
    ['0', '0', '0', '0', '0', '0', '0', '0', '0', '0', '0', '0', '0', '0', '0']
    (by decide) (by decide)

/-! ## The formatter only inserts hyphens -/

theorem filter_digit_group3 (n : List Char) (h : n.all Char.isDigit = true) (a b : Nat) :
    List.filter Char.isDigit
      (n.take a ++ '-' :: ((n.drop a).take b ++ '-' :: n.drop (a + b))) = n := by
  have hmem : ∀ x ∈ n, Char.isDigit x := by simpa [List.all_eq_true] using h
  have h1 : List.filter Char.isDigit (n.take a) = n.take a :=
    List.filter_eq_self.mpr fun x hx => hmem x (List.take_subset _ _ hx)
  have h2 : List.filter Char.isDigit ((n.drop a).take b) = (n.drop a).take b :=
    List.filter_eq_self.mpr fun x hx =>
      hmem x (List.drop_subset _ _ (List.take_subset _ _ hx))
  have h3 : List.filter Char.isDigit (n.drop (a + b)) = n.drop (a + b) :=
    List.filter_eq_self.mpr fun x hx => hmem x (List.drop_subset _ _ hx)
  have hdash : Char.isDigit '-' = false := by decide
  rw [List.filter_append, List.filter_cons, hdash]
  simp only [Bool.false_eq_true, if_false, List.filter_append, List.filter_cons, hdash]
  rw [h1, h2, h3, ← List.drop_drop, List.take_append_drop, List.take_append_drop]

theorem filter_digit_group4 (n : List Char) (h : n.all Char.isDigit = true) :
    List.filter Char.isDigit
      (n.take 4 ++ '-' :: ((n.drop 4).take 4 ++ '-' :: ((n.drop 8).take 4 ++ '-' :: n.drop 12))) = n := by
  have hmem : ∀ x ∈ n, Char.isDigit x := by simpa [List.all_eq_true] using h
  have h1 : List.filter Char.isDigit (n.take 4) = n.take 4 :=
    List.filter_eq_self.mpr fun x hx => hmem x (List.take_subset _ _ hx)
  have h2 : List.filter Char.isDigit ((n.drop 4).take 4) = (n.drop 4).take 4 :=
    List.filter_eq_self.mpr fun x hx =>
      hmem x (List.drop_subset _ _ (List.take_subset _ _ hx))
  have h3 : List.filter Char.isDigit ((n.drop 8).take 4) = (n.drop 8).take 4 :=
    List.filter_eq_self.mpr fun x hx =>
      hmem x (List.drop_subset _ _ (List.take_subset _ _ hx))
  have h4 : List.filter Char.isDigit (n.drop 12) = n.drop 12 :=
    List.filter_eq_self.mpr fun x hx => hmem x (List.drop_subset _ _ hx)
  have hdash : Char.isDigit '-' = false := by decide
  simp only [List.filter_append, List.filter_cons, hdash, Bool.false_eq_true, if_false]
  rw [h1, h2, h3, h4]
  have e12 : n.drop 12 = (n.drop 8).drop 4 := by rw [List.drop_drop]
  have e8 : n.drop 8 = (n.drop 4).drop 4 := by rw [List.drop_drop]
  rw [e12, List.take_append_drop, e8, List.take_append_drop, List.take_append_drop]

theorem all_digit_or_dash_of_digits (l : List Char) (h : l.all Char.isDigit = true) :
    l.all (fun c => c.isDigit || c == '-') = true := by
  simp only [List.all_eq_true] at h ⊢
  intro x hx
  simp [h x hx]

theorem group3_all_digit_or_dash (n : List Char) (h : n.all Char.isDigit = true) :
    (n.take 4 ++ '-' :: ((n.drop 4).take 6 ++ '-' :: n.drop 10)).all
      (fun c => c.isDigit || c == '-') = true := by
  have hmem : ∀ x ∈ n, Char.isDigit x := by simpa [List.all_eq_true] using h
  have hsub : ∀ m : List Char, m ⊆ n → m.all (fun c => c.isDigit || c == '-') = true := by
    intro m hm
    simp only [List.all_eq_true]
    intro x hx
    simp [hmem x (hm hx)]
  have hd : (('-' : Char).isDigit || '-' == '-') = true := by decide
  simp only [List.all_append, List.all_cons, hd, Bool.true_and, Bool.and_eq_true]
  exact ⟨hsub _ (List.take_subset _ _),
    hsub _ fun x hx => List.drop_subset _ _ (List.take_subset _ _ hx),
    hsub _ (List.drop_subset _ _)⟩

theorem group4_all_digit_or_dash (n : List Char) (h : n.all Char.isDigit = true) :
    (n.take 4 ++ '-' :: ((n.drop 4).take 4 ++ '-' :: ((n.drop 8).take 4 ++ '-' :: n.drop 12))).all
      (fun c => c.isDigit || c == '-') = true := by
  have hmem : ∀ x ∈ n, Char.isDigit x := by simpa [List.all_eq_true] using h
  have hsub : ∀ m : List Char, m ⊆ n → m.all (fun c => c.isDigit || c == '-') = true := by
    intro m hm
    simp only [List.all_eq_true]
    intro x hx
    simp [hmem x (hm hx)]
  have hd : (('-' : Char).isDigit || '-' == '-') = true := by decide
  simp only [List.all_append, List.all_cons, hd, Bool.true_and, Bool.and_eq_true]
  exact ⟨hsub _ (List.take_subset _ _),
    hsub _ fun x hx => List.drop_subset _ _ (List.take_subset _ _ hx),
    hsub _ fun x hx => List.drop_subset _ _ (List.take_subset _ _ hx),
    hsub _ (List.drop_subset _ _)⟩

/-- C10: formatting never loses, adds or reorders digits — normalizing a
formatted number gives back the normalized input — and the formatted
string consists only of digits and hyphens. -/
theorem C10_format_preserves_digits (numero : String) (bandeira : Option String) :
    limpar_numero (formatar_numero numero bandeira) = limpar_numero numero ∧
    (formatar_numero numero bandeira).data.all (fun c => c.isDigit || c == '-') = true := by
  have hn : ((limpar_numero numero).data).all Char.isDigit = true := limpar_all_isDigit numero
  by_cases hb1 : bandeiraEfetiva numero bandeira = some "American Express"
  · by_cases hl : ((limpar_numero numero).data).length = 15
    · simp only [formatar_numero, hb1, hl, if_true, if_pos]
      exact ⟨String.ext (filter_digit_group3 _ hn 4 6), group3_all_digit_or_dash _ hn⟩
    · simp only [formatar_numero, hb1, hl, if_true, if_false, if_neg, not_false_iff]
      exact ⟨limpar_of_all_isDigit _ hn, all_digit_or_dash_of_digits _ hn⟩
  · by_cases hb2 : bandeiraEfetiva numero bandeira = some "Diners Club"
    · by_cases hl : ((limpar_numero numero).data).length = 14
      · simp only [formatar_numero, hb1, hb2, hl, if_true, if_pos, if_neg, not_false_iff]
        exact ⟨String.ext (filter_digit_group3 _ hn 4 6), group3_all_digit_or_dash _ hn⟩
      · simp only [formatar_numero, hb1, hb2, hl, if_true, if_false, if_neg, not_false_iff]
        exact ⟨limpar_of_all_isDigit _ hn, all_digit_or_dash_of_digits _ hn⟩
    · by_cases hl : ((limpar_numero numero).data).length = 16
      · simp only [formatar_numero, hb1, hb2, hl, if_true, if_pos, if_neg, not_false_iff]
        exact ⟨String.ext (filter_digit_group4 _ hn), group4_all_digit_or_dash _ hn⟩
      · simp only [formatar_numero, hb1, hb2, hl, if_true, if_false, if_neg, not_false_iff]
        exact ⟨limpar_of_all_isDigit _ hn, all_digit_or_dash_of_digits _ hn⟩

/-- C3 as stated is false: with an unrecognized brand (the classifier
returns `none` on `1234567890123456`) and 16 digits, the `else` branch of
`formatar_numero` still inserts the `4-4-4-4` separators. -/
theorem C3_counterexample :
    formatar_numero "1234567890123456" none = "1234-5678-9012-3456" ∧
    identificar_bandeira "1234567890123456" = none ∧
    ("1234-5678-9012-3456" : String) ≠ "1234567890123456" := by
  decide

/-- C3 (amended): `formatar_numero` returns the cleaned digit string
unmodified when the digit count does not match the resolved brand's
formatting length — 15 for American Express, 14 for Diners Club and 16
for every other brand value, an unrecognized brand (`none`) included; an
unrecognized brand alone does not prevent formatting. -/
theorem C3_unformatted_on_length_mismatch (numero : String) (bandeira : Option String)
    (hamex : bandeiraEfetiva numero bandeira = some "American Express" →
      (limpar_numero numero).length ≠ 15)
    (hdin : bandeiraEfetiva numero bandeira = some "Diners Club" →
      (limpar_numero numero).length ≠ 14)
    (hother : bandeiraEfetiva numero bandeira ≠ some "American Express" →
      bandeiraEfetiva numero bandeira ≠ some "Diners Club" →
      (limpar_numero numero).length ≠ 16) :
    formatar_numero numero bandeira = limpar_numero numero := by
  by_cases hb1 : bandeiraEfetiva numero bandeira = some "American Express"
  · have hl : ¬ (((limpar_numero numero).data).length = 15) := hamex hb1
    simp only [formatar_numero, hb1, hl, if_true, if_false, if_neg, not_false_iff]
  · by_cases hb2 : bandeiraEfetiva numero bandeira = some "Diners Club"
    · have hl : ¬ (((limpar_numero numero).data).length = 14) := hdin hb2
      have hne : ¬ ((some "Diners Club" : Option String) = some "American Express") := by
        decide
      simp only [formatar_numero, hb1, hb2, hl, hne, if_true, if_false, if_neg,
        not_false_iff]
    · have hl : ¬ (((limpar_numero numero).data).length = 16) := hother hb1 hb2
      simp only [formatar_numero, hb1, hb2, hl, if_true, if_false, if_neg, not_false_iff]

theorem C3_unformatted_witness :
    formatar_numero "12345" none = limpar_numero "12345" :=
  C3_unformatted_on_length_mismatch "12345" none (by decide) (by decide) (by decide)

/-! ## The Luhn sum, three equivalent presentations -/

theorem doubleEvens_sum : ∀ xs : List Nat, (doubleEvens xs).sum = salt true xs
  | [] => rfl
  | [a] => rfl
  | a :: b :: rest => by
      simp only [doubleEvens, List.sum_cons, doubleEvens_sum rest]
      rfl

theorem sumIdx_eq_salt : ∀ (xs : List Nat) (i : Nat), sumIdx i xs = salt (i % 2 == 0) xs
  | [], _ => rfl
  | d :: rest, i => by
      have hflip : ((i + 1) % 2 == 0) = !(i % 2 == 0) := by
        rcases Nat.mod_two_eq_zero_or_one i with h | h <;> simp [Nat.add_mod, h]
      simp only [sumIdx, salt, saltW, double9, sumIdx_eq_salt rest (i + 1), hflip]
      rcases Nat.mod_two_eq_zero_or_one i with h | h <;> simp [h]

theorem salt_append (p : List Nat) : ∀ (b : Bool) (q : List Nat),
    ∃ A, ∀ d, salt b (p ++ d :: q) = A + saltW (flagAfter b p.length) d := by
  induction p with
  | nil =>
      intro b q
      refine ⟨salt (!b) q, fun d => ?_⟩
      simp [salt, flagAfter, Nat.add_comm]
  | cons h p ih =>
      intro b q
      obtain ⟨A, hA⟩ := ih (!b) q
      refine ⟨saltW b h + A, fun d => ?_⟩
      have hf : flagAfter b (h :: p).length = flagAfter (!b) p.length := by
        rcases Nat.mod_two_eq_zero_or_one p.length with h2 | h2 <;>
          simp [flagAfter, List.length_cons, Nat.add_mod, h2]
      rw [List.cons_append]
      simp only [salt]
      rw [hA d, hf, Nat.add_assoc]

theorem wsum_append (p q : List Nat) :
    ∃ A fl, ∀ d, wsum (p ++ d :: q) = A + saltW fl d := by
  cases p with
  | nil =>
      refine ⟨salt true q, false, fun d => ?_⟩
      simp [wsum, saltW, Nat.add_comm]
  | cons h t =>
      obtain ⟨A, hA⟩ := salt_append t true q
      refine ⟨h + A, flagAfter true t.length, fun d => ?_⟩
      rw [List.cons_append]
      simp only [wsum]
      rw [hA d, Nat.add_assoc]

theorem saltW_mod10_inj (fl : Bool) (d e : Nat) (hd : d < 10) (he : e < 10)
    (h : saltW fl d % 10 = saltW fl e % 10) : d = e := by
  cases fl
  · simp only [saltW, if_false, Bool.false_eq_true] at h
    omega
  · have key : ∀ x < 10, ∀ y < 10, double9 x % 10 = double9 y % 10 → x = y := by decide
    simp only [saltW, if_true] at h
    exact key d hd e he h

/-! ## Digit characters -/

theorem isDigit_toNat_bounds (c : Char) (h : c.isDigit = true) :
    48 ≤ c.toNat ∧ c.toNat ≤ 57 := by
  simp only [Char.isDigit, Bool.and_eq_true, decide_eq_true_eq] at h
  exact ⟨UInt32.le_toNat_of_le (by decide) h.1, UInt32.toNat_le_of_le (by decide) h.2⟩

theorem charToDigit_lt (c : Char) (h : c.isDigit = true) : charToDigit c < 10 := by
  have := isDigit_toNat_bounds c h
  unfold charToDigit
  omega

theorem charToDigit_inj (c c' : Char) (hc : c.isDigit = true) (hc' : c'.isDigit = true)
    (h : charToDigit c = charToDigit c') : c = c' := by
  have h1 := isDigit_toNat_bounds c hc
  have h2 := isDigit_toNat_bounds c' hc'
  have he : c.toNat = c'.toNat := by
    unfold charToDigit at h
    omega
  calc c = Char.ofNat c.toNat := (Char.ofNat_toNat c).symm
    _ = Char.ofNat c'.toNat := by rw [he]
    _ = c' := Char.ofNat_toNat c'

/-! ## `validar_luhn` on digit strings -/

theorem validar_luhn_digits (l : List Char) (hall : l.all Char.isDigit = true)
    (hne : l ≠ []) :
    validar_luhn ⟨l⟩ = (wsum ((l.map charToDigit).reverse) % 10 == 0) := by
  have hlimp : limpar_numero ⟨l⟩ = ⟨l⟩ := limpar_of_all_isDigit l hall
  have hsd : str_isdigit ⟨l⟩ = true := by
    simp [str_isdigit, hall, hne]
  obtain h0 | ⟨as, a, ha⟩ := List.eq_nil_or_concat (l.map charToDigit)
  · exact absurd (List.map_eq_nil_iff.mp h0) hne
  · simp only [validar_luhn, hlimp, hsd, if_true]
    rw [List.concat_eq_append] at ha
    rw [ha, List.dropLast_concat, List.getLastD_concat, List.reverse_append,
      List.sum_append, List.reverse_cons, List.reverse_nil, List.nil_append,
      List.singleton_append]
    simp only [wsum, List.sum_cons, List.sum_nil, doubleEvens_sum]
    rw [Nat.add_zero, Nat.add_comm]

theorem validar_luhn_empty_limpar (s : String) (h : (limpar_numero s).data = []) :
    validar_luhn s = false := by
  have hsd : str_isdigit (limpar_numero s) = false := by
    rw [str_isdigit_limpar]; simp [h]
  have : limpar_numero (limpar_numero s) = limpar_numero s :=
    (C8_limpar_idempotent_and_digits s).1
  simp only [validar_luhn, str_isdigit, h]
  rfl

/-- C4 as stated is false: on an input containing a non-digit character
`validar_luhn` need not return false — it strips the non-digits first,
so `"0a"` is accepted. -/
theorem C4_counterexample :
    validar_luhn "0a" = true ∧ ("0a" : String).data.all Char.isDigit = false := by
  decide

/-- C4 (amended): `validar_luhn` first removes every non-digit character
and then computes exactly the spec's Luhn algorithm on the remaining
digit string (false when nothing remains); in particular on a one-digit
string it returns true iff the digit is `0`. -/
theorem C4_luhn_matches_spec :
    (∀ s : String, validar_luhn s = luhnSpec ((limpar_numero s).data.map charToDigit)) ∧
    (∀ c : Char, c.isDigit = true → (validar_luhn ⟨[c]⟩ = true ↔ c = '0')) := by
  constructor
  · intro s
    by_cases h : (limpar_numero s).data = []
    · rw [validar_luhn_empty_limpar s h, h]
      rfl
    · have hall := limpar_all_isDigit s
      have hv : validar_luhn s = validar_luhn (limpar_numero s) := by
        simp only [validar_luhn, (C8_limpar_idempotent_and_digits s).1]
      rw [hv, validar_luhn_digits (limpar_numero s).data hall h]
      obtain h0 | ⟨as, a, ha⟩ := List.eq_nil_or_concat ((limpar_numero s).data.map charToDigit)
      · exact absurd (List.map_eq_nil_iff.mp h0) h
      · rw [List.concat_eq_append] at ha
        rw [ha]
        have hne2 : as ++ [a] ≠ [] := by simp
        obtain ⟨b, bs, hb⟩ := List.exists_cons_of_ne_nil hne2
        rw [hb, luhnSpec, ← hb]
        rw [List.dropLast_concat, List.getLastD_concat, List.reverse_append,
          List.reverse_cons, List.reverse_nil, List.nil_append]
        simp only [wsum, sumIdx_eq_salt]
        norm_num [Nat.add_comm]
  · intro c hc
    have hall : [c].all Char.isDigit = true := by simp [hc]
    rw [validar_luhn_digits [c] hall (by simp)]
    simp only [List.map_cons, List.map_nil, List.reverse_cons, List.reverse_nil,
      List.nil_append, wsum, salt, Nat.add_zero]
    have hlt := charToDigit_lt c hc
    constructor
    · intro h
      have hz : charToDigit c = 0 := by
        have h2 : charToDigit c % 10 = 0 := by simpa using h
        omega
      exact charToDigit_inj c '0' hc (by decide) (by rw [hz]; rfl)
    · intro h
      subst h
      decide

theorem C4_single_digit_witness :
    ('0' : Char).isDigit = true ∧ (validar_luhn ⟨['0']⟩ = true ↔ ('0' : Char) = '0') :=
  ⟨by decide, C4_luhn_matches_spec.2 '0' (by decide)⟩

/-- C6 as stated is false: `"1"` and `"2"` differ in their only digit yet
have the same Luhn validity (both invalid). -/
theorem C6_counterexample :
    validar_luhn "1" = false ∧ validar_luhn "2" = false ∧ ('1' : Char) ≠ '2' := by
  decide

/-- C6 (amended): a single-digit change never preserves Luhn *validity*:
if a digit string passes `validar_luhn`, replacing the digit at any one
position by a different digit makes it fail.  (Two invalid strings may
well differ in a single digit, which is what falsifies the original
claim.) -/
theorem C6_single_change_invalidates (u v : List Char) (c c' : Char)
    (hu : u.all Char.isDigit = true) (hv : v.all Char.isDigit = true)
    (hc : c.isDigit = true) (hc' : c'.isDigit = true) (hne : c ≠ c')
    (hvalid : validar_luhn ⟨u ++ c :: v⟩ = true) :
    validar_luhn ⟨u ++ c' :: v⟩ = false := by
  have hall : (u ++ c :: v).all Char.isDigit = true := by
    simp only [List.all_append, List.all_cons, hu, hv, hc, Bool.and_true, Bool.true_and]
  have hall' : (u ++ c' :: v).all Char.isDigit = true := by
    simp only [List.all_append, List.all_cons, hu, hv, hc', Bool.and_true, Bool.true_and]
  have hrev : ∀ x : Char, ((u ++ x :: v).map charToDigit).reverse =
      (v.map charToDigit).reverse ++ charToDigit x :: (u.map charToDigit).reverse := by
    intro x
    simp [List.map_append, List.reverse_append]
  obtain ⟨A, fl, hA⟩ := wsum_append ((v.map charToDigit).reverse)
    ((u.map charToDigit).reverse)
  rw [validar_luhn_digits _ hall (by simp), hrev c, hA] at hvalid
  by_contra hmod
  have hvalid' : validar_luhn ⟨u ++ c' :: v⟩ = true := by
    cases h : validar_luhn ⟨u ++ c' :: v⟩
    · exact absurd h hmod
    · rfl
  rw [validar_luhn_digits _ hall' (by simp), hrev c', hA] at hvalid'
  have e1 : (A + saltW fl (charToDigit c)) % 10 = 0 := by simpa using hvalid
  have e2 : (A + saltW fl (charToDigit c')) % 10 = 0 := by simpa using hvalid'
  have hmodeq : saltW fl (charToDigit c) % 10 = saltW fl (charToDigit c') % 10 :=
    Nat.ModEq.add_left_cancel' A (by unfold Nat.ModEq; omega)
  exact hne (charToDigit_inj c c' hc hc'
    (saltW_mod10_inj fl _ _ (charToDigit_lt c hc) (charToDigit_lt c' hc') hmodeq))

theorem C6_single_change_witness : validar_luhn "5111111111111111" = false :=
  C6_single_change_invalidates [] ("111111111111111".data) '4' '5'
    (by decide) (by decide) (by decide) (by decide) (by decide) (by decide)

end Validador
